import Mathlib

/-!
Verification development for the fts-collector repository (src/scraper.py).

The program fetches JSON from the FTS REST API, materializes it as pandas
dataframes, normalizes date columns, concatenates per-appeal and per-emergency
tables, and writes CSV files.  The embedding below models:

  * JSON values and table cells as one inductive type (a cell of a dataframe
    can hold a nested JSON object or array, which is exactly what pandas does
    for the grouping reports);
  * a pandas dataframe as an ordered list of column names, an optional index
    name, a list of index labels and a list of rows;
  * the pandas library operations the program uses (read_json on the two JSON
    shapes it receives, set_index, column assignment with apply, rename,
    DataFrame.from_records, concat, to_csv), restricted to the behaviors the
    program exercises, each with a comment stating the pandas behavior
    being modeled;
  * the network as a function from URL strings to JSON values, and the
    filesystem effects of the producer functions as an explicit event list.

Python exceptions (KeyError on a missing column, ValueError from pd.concat on
an empty list) are modeled with Except String.
-/

namespace Fts

/-- A JSON value / dataframe cell.  Numbers are modeled as integers (every
numeric value the claims exercise is an integer id or amount).  The
timestamp constructor is the result of date parsing, tagging the parsed
source string; it never occurs on the wire. -/
inductive Cell where
  | str (s : String)
  | num (n : Int)
  | null
  | timestamp (s : String)
  | obj (fields : List (String × Cell))
  | arr (elems : List Cell)

def Cell.isObj : Cell → Bool
  | .obj _ => true
  | _ => false

def Cell.isArr : Cell → Bool
  | .arr _ => true
  | _ => false

def Cell.arrLen : Cell → Nat
  | .arr es => es.length
  | _ => 0

def Cell.arrGet : Cell → Nat → Cell
  | .arr es, j => es.getD j Cell.null
  | _, _ => Cell.null

def Cell.objKeys : Cell → List String
  | .obj fs => fs.map Prod.fst
  | _ => []

/-- Python str() on the values that occur as appeal and emergency ids in this
program (JSON integers and strings).  The obj and arr renderings stand in for
the Python repr of containers, which the program never feeds to str() because
ids are scalars. -/
def str_py : Cell → String
  | .str s => s
  | .num n => toString n
  | .timestamp s => s
  | .null => "None"
  | .obj _ => "<object>"
  | .arr _ => "<array>"

/-- Rendering of one cell in a CSV file.  pandas writes the empty string for
missing values; containers never reach to_csv in the scenarios the claims
exercise. -/
def Cell.render : Cell → String
  | .str s => s
  | .num n => toString n
  | .timestamp s => s
  | .null => ""
  | .obj _ => "<object>"
  | .arr _ => "<array>"

/-- A pandas dataframe: ordered column names, the name of the row index (none
for the default positional index), the index labels and the rows.  In every
dataframe the program builds, each row has one cell per column and the index
has one label per row. -/
structure DataFrame where
  columns : List String
  indexName : Option String
  index : List Cell
  rows : List (List Cell)

/-- pandas DataFrame.empty: true when any axis has length zero. -/
def DataFrame.empty (df : DataFrame) : Bool :=
  df.rows.isEmpty || df.columns.isEmpty

/-- Position of the first occurrence of a column name, as pandas column lookup
finds it. -/
def colIndex (c : String) : List String → Option Nat
  | [] => none
  | x :: xs => if x = c then some 0 else (colIndex c xs).map (fun i => i + 1)

/-- pandas DataFrame.set_index(c): move column c to the row index, naming the
index after it; KeyError when the column is absent. -/
def DataFrame.set_index (df : DataFrame) (c : String) : Except String DataFrame :=
  match colIndex c df.columns with
  | none => .error ("KeyError: " ++ c)
  | some i => .ok
      { columns := df.columns.eraseIdx i
        indexName := some c
        index := df.rows.map (fun r => r.getD i Cell.null)
        rows := df.rows.map (fun r => r.eraseIdx i) }

/-- pandas column access df[c] (also attribute access df.c): the cells of
column c, KeyError when absent. -/
def DataFrame.getColumn (df : DataFrame) (c : String) : Except String (List Cell) :=
  match colIndex c df.columns with
  | none => .error ("KeyError: " ++ c)
  | some i => .ok (df.rows.map (fun r => r.getD i Cell.null))

/-- pandas df[c] = df[c].apply(f): map f over column c, KeyError when the
column is absent (this is what the in-place assignment raises first, via the
column read on the right-hand side). -/
def DataFrame.applyToColumn (df : DataFrame) (c : String) (f : Cell → Cell) :
    Except String DataFrame :=
  match colIndex c df.columns with
  | none => .error ("KeyError: " ++ c)
  | some i => .ok { df with rows := df.rows.map (fun r => r.set i (f (r.getD i Cell.null))) }

/-- pandas DataFrame.rename(columns=mapping): every column name is passed
through the mapping, names not in the mapping are kept. -/
def DataFrame.rename (df : DataFrame) (mapping : List (String × String)) : DataFrame :=
  { df with columns := df.columns.map (fun c => (mapping.lookup c).getD c) }

/-- Union of the keys of a list of JSON objects in order of first appearance:
the columns pandas infers for a sequence of records. -/
def recordColumns (cells : List Cell) : List String :=
  cells.foldl (fun acc c => acc ++ ((Cell.objKeys c).filter (fun k => !(acc.contains k)))) []

/-- The row a JSON object contributes under the given columns; keys the object
lacks become missing values. -/
def recordRow (cols : List String) : Cell → List Cell
  | Cell.obj fs => cols.map (fun k => (fs.lookup k).getD Cell.null)
  | _ => []

/-- The default positional RangeIndex 0, 1, ..., n-1. -/
def positionalIndex (n : Nat) : List Cell :=
  (List.range n).map (fun i => Cell.num i)

/-- pandas read_json on the two JSON shapes the FTS API returns:
  * an array of objects becomes one row per object, columns the union of the
    keys in order of first appearance (an empty array becomes the table with
    no rows and no columns);
  * a single object whose values are equal-length arrays becomes one column
    per key, one row per array position (the shape of the funding and pledges
    reports, whose grouping field holds one object per row).
Shapes the program never receives are modeled as errors. -/
def read_json : Cell → Except String DataFrame
  | .arr cells =>
      if cells.all Cell.isObj then
        .ok { columns := recordColumns cells
              indexName := none
              index := positionalIndex cells.length
              rows := cells.map (recordRow (recordColumns cells)) }
      else .error "read_json: unsupported array content"
  | .obj kvs =>
      if kvs.all (fun kv => kv.2.isArr) then
        let n : Nat := match kvs with
          | [] => 0
          | kv :: _ => kv.2.arrLen
        if kvs.all (fun kv => kv.2.arrLen = n) then
          .ok { columns := kvs.map Prod.fst
                indexName := none
                index := positionalIndex n
                rows := (List.range n).map (fun j => kvs.map (fun kv => kv.2.arrGet j)) }
        else .error "read_json: arrays of differing length"
      else .error "read_json: unsupported object content"
  | _ => .error "read_json: unsupported JSON shape"

/-- pandas DataFrame.from_records on the cell sequences the grouping code can
feed it:
  * a sequence of dict cells becomes one row per dict, keyed columns;
  * a sequence of list cells is treated positionally: each list is a row and
    the column labels are the integers 0..k-1 (modeled as the decimal strings
    "0".."k-1", which, exactly like the integer labels, are matched by no
    string-keyed rename or set_index);
  * other shapes do not occur and yield the empty table. -/
def from_records (cells : List Cell) : DataFrame :=
  if cells.all Cell.isObj then
    { columns := recordColumns cells
      indexName := none
      index := positionalIndex cells.length
      rows := cells.map (recordRow (recordColumns cells)) }
  else if cells.all Cell.isArr then
    let k := cells.foldl (fun m c => max m c.arrLen) 0
    { columns := (List.range k).map (fun i => toString i)
      indexName := none
      index := positionalIndex cells.length
      rows := cells.map (fun c => (List.range k).map (fun j => c.arrGet j)) }
  else
    { columns := [], indexName := none, index := [], rows := [] }

/-- The run's network environment: every URL the program requests maps to the
parsed JSON body the server returns for it. -/
abbrev Net := String → Cell

def FTS_BASE_URL : String := "http://fts.unocha.org/api/v1/"

def JSON_SUFFIX : String := ".json"

def fetch_json_as_dataframe (net : Net) (url : String) : Except String DataFrame :=
  read_json (net url)

def fetch_json_as_dataframe_with_id (net : Net) (url : String) : Except String DataFrame := do
  let dataframe ← fetch_json_as_dataframe net url
  if dataframe.columns.contains "id" then
    dataframe.set_index "id"
  else
    return dataframe  -- happens with an empty result

def build_json_url (middle_part : String) : String :=
  FTS_BASE_URL ++ middle_part ++ JSON_SUFFIX

/-- pd.datetools.parse on the well-formed date strings this data carries,
modeled as tagging the string as a timestamp.  No claim concerns malformed
date strings, so parsing is total here. -/
def datetools_parse : Cell → Cell
  | .str s => .timestamp s
  | c => c

def convert_date_columns_from_string_to_timestamp :
    DataFrame → List String → Except String DataFrame
  | dataframe, [] => .ok dataframe
  | dataframe, column_name :: rest => do
      let d ← dataframe.applyToColumn column_name datetools_parse
      convert_date_columns_from_string_to_timestamp d rest

def fetch_sectors_json_as_dataframe (net : Net) : Except String DataFrame :=
  fetch_json_as_dataframe_with_id net (build_json_url "Sector")

def fetch_countries_json_as_dataframe (net : Net) : Except String DataFrame :=
  fetch_json_as_dataframe_with_id net (build_json_url "Country")

def fetch_organizations_json_as_dataframe (net : Net) : Except String DataFrame :=
  fetch_json_as_dataframe_with_id net (build_json_url "Organization")

def fetch_emergencies_json_for_country_as_dataframe (net : Net) (country : String) :
    Except String DataFrame :=
  fetch_json_as_dataframe_with_id net (build_json_url ("Emergency/country/" ++ country))

def fetch_emergencies_json_for_year_as_dataframe (net : Net) (year : Int) :
    Except String DataFrame :=
  fetch_json_as_dataframe_with_id net (build_json_url ("Emergency/year/" ++ toString year))

def fetch_appeals_json_as_dataframe_given_url (net : Net) (url : String) :
    Except String DataFrame := do
  let dataframe ← fetch_json_as_dataframe_with_id net url
  convert_date_columns_from_string_to_timestamp dataframe
    ["start_date", "end_date", "launch_date"]

def fetch_appeals_json_for_country_as_dataframe (net : Net) (country : String) :
    Except String DataFrame :=
  fetch_appeals_json_as_dataframe_given_url net (build_json_url ("Appeal/country/" ++ country))

def fetch_appeals_json_for_year_as_dataframe (net : Net) (year : Int) :
    Except String DataFrame :=
  fetch_appeals_json_as_dataframe_given_url net (build_json_url ("Appeal/year/" ++ toString year))

def fetch_projects_json_for_appeal_as_dataframe (net : Net) (appeal_id : Cell) :
    Except String DataFrame := do
  let dataframe ← fetch_json_as_dataframe_with_id net
    (build_json_url ("Project/appeal/" ++ str_py appeal_id))
  if !dataframe.empty then  -- guard against empty result
    convert_date_columns_from_string_to_timestamp dataframe
      ["end_date", "last_updated_datetime"]
  else
    return dataframe

def fetch_clusters_json_for_appeal_as_dataframe (net : Net) (appeal_id : Cell) :
    Except String DataFrame :=
  -- NOTE no id present in this data
  fetch_json_as_dataframe net (build_json_url ("Cluster/appeal/" ++ str_py appeal_id))

def fetch_contributions_json_as_dataframe_given_url (net : Net) (url : String) :
    Except String DataFrame := do
  let dataframe ← fetch_json_as_dataframe_with_id net url
  if !dataframe.empty then  -- guard against empty result
    convert_date_columns_from_string_to_timestamp dataframe ["decision_date"]
  else
    return dataframe

def fetch_contributions_json_for_appeal_as_dataframe (net : Net) (appeal_id : Cell) :
    Except String DataFrame :=
  fetch_contributions_json_as_dataframe_given_url net
    (build_json_url ("Contribution/appeal/" ++ str_py appeal_id))

def fetch_contributions_json_for_emergency_as_dataframe (net : Net) (emergency_id : Cell) :
    Except String DataFrame :=
  fetch_contributions_json_as_dataframe_given_url net
    (build_json_url ("Contribution/emergency/" ++ str_py emergency_id))

/-- The grouping-report fetch.  Python truthiness of the grouping and alias
arguments is modeled exactly: None and the empty string are falsy. -/
def fetch_grouping_type_json_for_appeal_as_dataframe (net : Net) (middle_part : String)
    (appeal_id : Cell) (grouping : Option String) (alias_ : Option String) :
    Except String DataFrame := do
  let baseUrl := build_json_url middle_part ++ "?Appeal=" ++ str_py appeal_id
  let url := match grouping with
    | some g => if g ≠ "" then baseUrl ++ "&GroupBy=" ++ g else baseUrl
    | none => baseUrl
  -- NOTE no id present in this data
  let raw_dataframe ← fetch_json_as_dataframe net url
  -- oddly the JSON of interest is nested inside the "grouping" element
  let groupingValues ← raw_dataframe.getColumn "grouping"
  let processed_frame := from_records groupingValues
  match alias_ with
  | some a =>
      if a ≠ "" then
        (processed_frame.rename [("type", a), ("amount", middle_part)]).set_index a
      else
        return processed_frame
  | none => return processed_frame

def fetch_funding_json_for_appeal_as_dataframe (net : Net) (appeal_id : Cell)
    (grouping : Option String) (alias_ : Option String) : Except String DataFrame :=
  fetch_grouping_type_json_for_appeal_as_dataframe net "funding" appeal_id grouping alias_

def fetch_pledges_json_for_appeal_as_dataframe (net : Net) (appeal_id : Cell)
    (grouping : Option String) (alias_ : Option String) : Except String DataFrame :=
  fetch_grouping_type_json_for_appeal_as_dataframe net "pledges" appeal_id grouping alias_

/-- os.path.join for the POSIX paths this program builds (the second component
is never absolute here): add a separator unless the first component is empty
or already ends in one. -/
def os_path_join (a b : String) : String :=
  if a = "" then b
  else if a.data.getLast? = some '/' then a ++ b
  else a ++ "/" ++ b

/-- build_csv_path.  The Python country parameter is truthiness-tested, so
None and the empty string both select the country-less filename. -/
def build_csv_path (base_path object_type : String) (country : Option String := none) :
    String :=
  let filename := "fts_" ++ object_type ++ ".csv"
  let filename := match country with
    | some c =>  -- a little bit of duplication but easier to read
        if c ≠ "" then "fts_" ++ c ++ "_" ++ object_type ++ ".csv" else filename
    | none => filename
  os_path_join base_path filename

/-- A filesystem effect of one producer run: a recursive directory creation
(os.makedirs) or a CSV file write (path and lines). -/
inductive FsEvent where
  | mkdirs (path : String)
  | write (path : String) (lines : List String)

/-- DataFrame.to_csv(path, index=True): a header line holding the index name
followed by the column names, then one line per row, index label first.
Quoting never triggers on this data and is not modeled. -/
def DataFrame.to_csv (df : DataFrame) : List String :=
  (String.intercalate "," ((df.indexName.getD "") :: df.columns)) ::
    (df.index.zip df.rows).map
      (fun p => String.intercalate "," (p.1.render :: p.2.map Cell.render))

def write_dataframe_to_csv (dataframe : DataFrame) (path : String) : FsEvent :=
  -- include the index which is an ID for each of the objects serialized here
  FsEvent.write path dataframe.to_csv

def filter_out_empty_dataframes (dataframes : List DataFrame) : List DataFrame :=
  -- empty dataframes will fail the "if" test
  dataframes.filter (fun frame => !frame.empty)

/-- Sequential effectful map: the Python list comprehension over fetch calls,
with the first raised exception propagating. -/
def mapExcept (f : α → Except String β) : List α → Except String (List β)
  | [] => .ok []
  | a :: as => do
      let b ← f a
      let bs ← mapExcept f as
      return b :: bs

/-- pd.concat: ValueError on an empty list; on frames sharing one column
schema (the only case this program produces) the rows and index labels are
concatenated in order and the index name is kept when all frames agree on it.
pandas aligns differing column sets by name with null filling; that case is
never reached here and is modeled as an error. -/
def pd_concat (frames : List DataFrame) : Except String DataFrame :=
  match frames with
  | [] => .error "ValueError: No objects to concatenate"
  | f :: rest =>
      if rest.all (fun g => g.columns == f.columns) then
        .ok { columns := f.columns
              indexName :=
                if rest.all (fun g => g.indexName == f.indexName) then f.indexName else none
              index := (frames.map DataFrame.index).flatten
              rows := (frames.map DataFrame.rows).flatten }
      else
        .error "pd_concat: differing column sets not modeled"

def produce_sectors_csv (net : Net) (output_dir : String) : Except String (List FsEvent) := do
  let sectors ← fetch_sectors_json_as_dataframe net
  return [write_dataframe_to_csv sectors (build_csv_path output_dir "sectors")]

def produce_countries_csv (net : Net) (output_dir : String) : Except String (List FsEvent) := do
  let countries ← fetch_countries_json_as_dataframe net
  return [write_dataframe_to_csv countries (build_csv_path output_dir "countries")]

def produce_organizations_csv (net : Net) (output_dir : String) :
    Except String (List FsEvent) := do
  let organizations ← fetch_organizations_json_as_dataframe net
  return [write_dataframe_to_csv organizations (build_csv_path output_dir "organizations")]

/-- produce_global_csvs.  The filesystem is modeled by the predicate exs
(os.path.exists); os.makedirs is recorded as an event when the directory is
missing. -/
def produce_global_csvs (net : Net) (exs : String → Bool) (base_output_dir : String) :
    Except String (List FsEvent) := do
  let output_dir := os_path_join (os_path_join base_output_dir "fts") "global"
  let pre := if exs output_dir then [] else [FsEvent.mkdirs output_dir]
  let e1 ← produce_sectors_csv net output_dir
  let e2 ← produce_countries_csv net output_dir
  let e3 ← produce_organizations_csv net output_dir
  return pre ++ e1 ++ e2 ++ e3

def produce_emergencies_csv_for_country (net : Net) (output_dir country : String) :
    Except String (List FsEvent) := do
  let emergencies ← fetch_emergencies_json_for_country_as_dataframe net country
  return [write_dataframe_to_csv emergencies
    (build_csv_path output_dir "emergencies" (some country))]

def produce_appeals_csv_for_country (net : Net) (output_dir country : String) :
    Except String (List FsEvent) := do
  let appeals ← fetch_appeals_json_for_country_as_dataframe net country
  return [write_dataframe_to_csv appeals (build_csv_path output_dir "appeals" (some country))]

def produce_projects_csv_for_country (net : Net) (output_dir country : String) :
    Except String (List FsEvent) := do
  -- first get all appeals for this country
  let appeals ← fetch_appeals_json_for_country_as_dataframe net country
  let appeal_ids := appeals.index
  -- then get all projects corresponding to those appeals and concatenate
  let list_of_projects ← mapExcept
    (fun appeal_id => fetch_projects_json_for_appeal_as_dataframe net appeal_id) appeal_ids
  let list_of_non_empty_projects := filter_out_empty_dataframes list_of_projects
  let projects_frame ← pd_concat list_of_non_empty_projects
  return [write_dataframe_to_csv projects_frame
    (build_csv_path output_dir "projects" (some country))]

def produce_contributions_csv_for_country (net : Net) (output_dir country : String) :
    Except String (List FsEvent) := do
  -- first get all emergencies for this country
  let emergencies ← fetch_emergencies_json_for_country_as_dataframe net country
  let emergency_ids := emergencies.index
  -- then get all contributions corresponding to those emergencies and concatenate
  let list_of_contributions ← mapExcept
    (fun emergency_id => fetch_contributions_json_for_emergency_as_dataframe net emergency_id)
    emergency_ids
  let list_of_non_empty_contributions := filter_out_empty_dataframes list_of_contributions
  let contributions_master_frame ← pd_concat list_of_non_empty_contributions
  return [write_dataframe_to_csv contributions_master_frame
    (build_csv_path output_dir "contributions" (some country))]

def produce_csvs_for_country (net : Net) (exs : String → Bool)
    (base_output_dir country : String) : Except String (List FsEvent) := do
  let output_dir :=
    os_path_join (os_path_join (os_path_join base_output_dir "fts") "per_country") country
  let pre := if exs output_dir then [] else [FsEvent.mkdirs output_dir]
  let e1 ← produce_emergencies_csv_for_country net output_dir country
  let e2 ← produce_appeals_csv_for_country net output_dir country
  let e3 ← produce_projects_csv_for_country net output_dir country
  let e4 ← produce_contributions_csv_for_country net output_dir country
  return pre ++ e1 ++ e2 ++ e3 ++ e4

/-- The dataframe an empty JSON array materializes to: no rows, no columns,
default index. -/
def emptyDataFrame : DataFrame :=
  { columns := [], indexName := none, index := [], rows := [] }

/-! ### Demo payloads and networks for the concrete witnesses and
counterexamples.  Every URL a demo network does not single out returns the
empty JSON array, which is also what the API returns for an unknown
resource. -/

def groupingRecordA : Cell := Cell.obj [("type", Cell.str "A"), ("amount", Cell.num 5)]

def groupingRecordB : Cell := Cell.obj [("type", Cell.str "B"), ("amount", Cell.num 7)]

/-- Network for the C6 counterexample: the funding query returns the JSON of
the claim, a top-level array holding one record whose grouping field is the
payload. -/
def c6netList : Net := fun url =>
  if url = build_json_url "funding" ++ "?Appeal=942" then
    Cell.arr [Cell.obj [("grouping", Cell.arr [groupingRecordA, groupingRecordB])]]
  else Cell.arr []

/-- Network for the amended C6: the funding query returns a single top-level
object with the grouping field, the shape whose grouping column read_json
expands to one row per element. -/
def c6netObj : Net := fun url =>
  if url = build_json_url "funding" ++ "?Appeal=942" then
    Cell.obj [("grouping", Cell.arr [groupingRecordA, groupingRecordB])]
  else Cell.arr []

/-- Network for the C5 end-to-end scenario: the country Chad has two appeals,
appeal 1 with zero projects and appeal 2 with three projects. -/
def c5net : Net := fun url =>
  if url = build_json_url ("Appeal/country/" ++ "Chad") then
    Cell.arr [
      Cell.obj [("id", Cell.num 1), ("start_date", Cell.str "2013-01-01"),
                ("end_date", Cell.str "2013-06-30"), ("launch_date", Cell.str "2012-12-15")],
      Cell.obj [("id", Cell.num 2), ("start_date", Cell.str "2013-02-01"),
                ("end_date", Cell.str "2013-07-31"), ("launch_date", Cell.str "2013-01-15")]]
  else if url = build_json_url ("Project/appeal/" ++ "2") then
    Cell.arr [
      Cell.obj [("id", Cell.num 11), ("end_date", Cell.str "2013-06-30"),
                ("last_updated_datetime", Cell.str "2013-05-01")],
      Cell.obj [("id", Cell.num 12), ("end_date", Cell.str "2013-06-30"),
                ("last_updated_datetime", Cell.str "2013-05-02")],
      Cell.obj [("id", Cell.num 13), ("end_date", Cell.str "2013-06-30"),
                ("last_updated_datetime", Cell.str "2013-05-03")]]
  else Cell.arr []

/-- The CSV the C5 scenario writes: a header line and three data rows, in
appeal-id iteration order. -/
def c5lines : List String :=
  ["id,end_date,last_updated_datetime",
   "11,2013-06-30,2013-05-01",
   "12,2013-06-30,2013-05-02",
   "13,2013-06-30,2013-05-03"]

/-- Network for the C10 witness, second scenario: Chad has one appeal and its
project table is empty (as is every other resource). -/
def c10netEmptyProjects : Net := fun url =>
  if url = build_json_url ("Appeal/country/" ++ "Chad") then
    Cell.arr [Cell.obj [("id", Cell.num 1), ("start_date", Cell.str "2013-01-01"),
              ("end_date", Cell.str "2013-06-30"), ("launch_date", Cell.str "2012-12-15")]]
  else Cell.arr []

/-- Network for the C10 witness, third scenario: Chad has one emergency and
its contribution table is empty. -/
def c10netEmptyContributions : Net := fun url =>
  if url = build_json_url ("Emergency/country/" ++ "Chad") then
    Cell.arr [Cell.obj [("id", Cell.num 7), ("title", Cell.str "drought")]]
  else Cell.arr []

/-- Network for the C9 witness: the three global resources each have one
record, and the country C has one emergency (id 7), one appeal (id 1), one
project under that appeal and one contribution under that emergency. -/
def c9net : Net := fun url =>
  if url = build_json_url "Sector" then
    Cell.arr [Cell.obj [("id", Cell.num 1), ("name", Cell.str "Health")]]
  else if url = build_json_url "Country" then
    Cell.arr [Cell.obj [("id", Cell.num 2), ("name", Cell.str "Chad")]]
  else if url = build_json_url "Organization" then
    Cell.arr [Cell.obj [("id", Cell.num 3), ("name", Cell.str "UN")]]
  else if url = build_json_url ("Emergency/country/" ++ "C") then
    Cell.arr [Cell.obj [("id", Cell.num 7), ("title", Cell.str "drought")]]
  else if url = build_json_url ("Appeal/country/" ++ "C") then
    Cell.arr [Cell.obj [("id", Cell.num 1), ("start_date", Cell.str "2013-01-01"),
              ("end_date", Cell.str "2013-06-30"), ("launch_date", Cell.str "2012-12-15")]]
  else if url = build_json_url ("Project/appeal/" ++ "1") then
    Cell.arr [Cell.obj [("id", Cell.num 11), ("end_date", Cell.str "2013-06-30"),
              ("last_updated_datetime", Cell.str "2013-05-01")]]
  else if url = build_json_url ("Contribution/emergency/" ++ "7") then
    Cell.arr [Cell.obj [("id", Cell.num 21), ("decision_date", Cell.str "2013-03-01")]]
  else Cell.arr []

/-! ### Helper lemmas about the Except monad and column lookup -/

@[simp] theorem ok_bind {α β : Type} (a : α) (f : α → Except String β) :
    (Except.ok a >>= f) = f a := rfl

@[simp] theorem error_bind {α β : Type} (e : String) (f : α → Except String β) :
    ((Except.error e : Except String α) >>= f) = Except.error e := rfl

theorem colIndex_mem {c : String} : ∀ {l : List String} {i : Nat},
    colIndex c l = some i → c ∈ l := by
  intro l
  induction l with
  | nil => intro i h; simp [colIndex] at h
  | cons x xs ih =>
      intro i h
      by_cases hx : x = c
      · simp [hx]
      · simp only [colIndex, if_neg hx] at h
        cases hcx : colIndex c xs with
        | none => rw [hcx] at h; simp at h
        | some j => exact List.mem_cons_of_mem x (ih hcx)

theorem colIndex_isSome_of_mem {c : String} : ∀ {l : List String},
    c ∈ l → ∃ i, colIndex c l = some i := by
  intro l
  induction l with
  | nil => intro h; cases h
  | cons x xs ih =>
      intro h
      by_cases hx : x = c
      · exact ⟨0, by simp [colIndex, hx]⟩
      · rcases List.mem_cons.mp h with hxc | hm
        · exact absurd hxc.symm hx
        · obtain ⟨j, hj⟩ := ih hm
          exact ⟨j + 1, by simp [colIndex, if_neg hx, hj]⟩

theorem not_mem_eraseIdx_of_colIndex {c : String} : ∀ {l : List String} {i : Nat},
    l.Nodup → colIndex c l = some i → c ∉ l.eraseIdx i := by
  intro l
  induction l with
  | nil => intro i _ h; simp [colIndex] at h
  | cons x xs ih =>
      intro i hn h
      rcases List.nodup_cons.mp hn with ⟨hx, hxs⟩
      by_cases hxc : x = c
      · subst hxc
        simp only [colIndex, if_true, eq_self_iff_true, Option.some.injEq] at h
        subst h
        simpa [List.eraseIdx] using hx
      · simp only [colIndex, if_neg hxc] at h
        cases hcx : colIndex c xs with
        | none => rw [hcx] at h; simp at h
        | some j =>
            rw [hcx] at h
            have hji : j + 1 = i := Option.some.inj h
            subst hji
            simp only [List.eraseIdx, List.mem_cons, not_or]
            exact ⟨fun hc => hxc hc.symm, ih hxs hcx⟩

theorem contains_eq_true_of_colIndex {c : String} {l : List String} {i : Nat}
    (h : colIndex c l = some i) : l.contains c = true := by
  have := colIndex_mem h
  simpa using this

/-! ### Claims -/

/-- C8: for every path suffix m, the URL builder returns exactly the fixed
base joined with m and the fixed suffix ".json", by plain string
concatenation with no escaping of m. -/
theorem C8_build_json_url_is_plain_concatenation (middle_part : String) :
    build_json_url middle_part =
      "http://fts.unocha.org/api/v1/" ++ middle_part ++ ".json" := rfl

/-- C7: build_csv_path without a country joins the base path with
fts_(type).csv, with a (non-falsy) country it joins the base path with
fts_(country)_(type).csv; in particular the two /tmp instances of the
claim evaluate as stated. -/
theorem C7_build_csv_path_layout :
    (∀ base_path object_type : String,
        build_csv_path base_path object_type none =
          os_path_join base_path ("fts_" ++ object_type ++ ".csv")) ∧
    (∀ base_path object_type c : String, c ≠ "" →
        build_csv_path base_path object_type (some c) =
          os_path_join base_path ("fts_" ++ c ++ "_" ++ object_type ++ ".csv")) ∧
    build_csv_path "/tmp" "appeals" = "/tmp/fts_appeals.csv" ∧
    build_csv_path "/tmp" "appeals" (some "SSD") = "/tmp/fts_SSD_appeals.csv" := by
  refine ⟨fun b t => rfl, fun b t c hc => ?_, rfl, rfl⟩
  simp only [build_csv_path, if_pos hc]

/-- Witness for C7 at the concrete country "C". -/
theorem C7_witness : build_csv_path "/x" "t" (some "C") = "/x/fts_C_t.csv" :=
  C7_build_csv_path_layout.2.1 "/x" "t" "C" (by decide)

/-- C4: a fetch whose JSON result is the empty array yields the table with
zero rows, no index is set (the index keeps its default anonymous form), and
no error is raised. -/
theorem C4_empty_result_returned_unindexed (net : Net) (url : String)
    (h : net url = Cell.arr []) :
    fetch_json_as_dataframe_with_id net url = Except.ok emptyDataFrame ∧
    emptyDataFrame.rows = [] ∧ emptyDataFrame.indexName = none := by
  refine ⟨?_, rfl, rfl⟩
  unfold fetch_json_as_dataframe_with_id fetch_json_as_dataframe
  rw [h]
  rfl

/-- Witness for C4 at a network returning the empty array everywhere. -/
theorem C4_witness :
    fetch_json_as_dataframe_with_id (fun _ => Cell.arr []) "u" = Except.ok emptyDataFrame :=
  (C4_empty_result_returned_unindexed (fun _ => Cell.arr []) "u" rfl).1

/-- C1: when the fetched table is non-empty and has an id column (at position
i of its duplicate-free column list), fetch_json_as_dataframe_with_id returns
the table re-indexed by the values of that column, and id no longer appears
among the regular columns. -/
theorem C1_fetch_with_id_reindexes (net : Net) (url : String) (df : DataFrame) (i : Nat)
    (hfetch : read_json (net url) = Except.ok df)
    (_hne : df.empty = false)
    (hnodup : df.columns.Nodup)
    (hid : colIndex "id" df.columns = some i) :
    fetch_json_as_dataframe_with_id net url = Except.ok
      { columns := df.columns.eraseIdx i
        indexName := some "id"
        index := df.rows.map (fun r => r.getD i Cell.null)
        rows := df.rows.map (fun r => r.eraseIdx i) } ∧
    "id" ∉ df.columns.eraseIdx i := by
  refine ⟨?_, not_mem_eraseIdx_of_colIndex hnodup hid⟩
  unfold fetch_json_as_dataframe_with_id fetch_json_as_dataframe
  rw [hfetch]
  have hc : df.columns.contains "id" = true := contains_eq_true_of_colIndex hid
  simp only [ok_bind, hc, if_true]
  unfold DataFrame.set_index
  rw [hid]

/-- Witness for C1 at a one-row table with columns id and name. -/
theorem C1_witness :
    fetch_json_as_dataframe_with_id
        (fun _ => Cell.arr [Cell.obj [("id", Cell.num 1), ("name", Cell.str "x")]]) "u" =
      Except.ok { columns := ["name"], indexName := some "id",
                  index := [Cell.num 1], rows := [[Cell.str "x"]] } ∧
    "id" ∉ (["name"] : List String) :=
  C1_fetch_with_id_reindexes
    (fun _ => Cell.arr [Cell.obj [("id", Cell.num 1), ("name", Cell.str "x")]]) "u"
    { columns := ["id", "name"], indexName := none,
      index := [Cell.num 0], rows := [[Cell.num 1, Cell.str "x"]] } 0
    rfl rfl (by decide) rfl

/-- C3 counterexample: the date normalizer itself is not guarded; applied to
the zero-row, zero-column table that an empty fetch materializes, with the
column list ["end_date"], it raises a KeyError instead of being a no-op. -/
theorem C3_counterexample :
    convert_date_columns_from_string_to_timestamp emptyDataFrame ["end_date"] =
      Except.error "KeyError: end_date" := rfl

/-- C3 (amended): applying the date normalizer to a table with zero rows is a
no-op, provided every named column is present in the table; the emptiness
guards that keep it away from the no-column empty tables live in the callers,
not in the normalizer itself. -/
theorem C3_normalizer_noop_on_zero_rows (df : DataFrame) (cols : List String)
    (hrows : df.rows = [])
    (hcols : ∀ c ∈ cols, c ∈ df.columns) :
    convert_date_columns_from_string_to_timestamp df cols = Except.ok df := by
  obtain ⟨columns, indexName, index, rows⟩ := df
  simp only at hrows hcols
  subst hrows
  induction cols with
  | nil => rfl
  | cons c cs ih =>
      obtain ⟨i, hi⟩ := colIndex_isSome_of_mem (hcols c (by simp))
      have happ : DataFrame.applyToColumn ⟨columns, indexName, index, []⟩ c datetools_parse =
          Except.ok ⟨columns, indexName, index, []⟩ := by
        unfold DataFrame.applyToColumn
        rw [hi]
        rfl
      simp only [convert_date_columns_from_string_to_timestamp, happ, ok_bind]
      exact ih (fun x hx => hcols x (List.mem_cons_of_mem c hx))

/-- Witness for the amended C3 at a zero-row table carrying the column. -/
theorem C3_witness :
    convert_date_columns_from_string_to_timestamp
        ⟨["end_date"], none, [], []⟩ ["end_date"] =
      Except.ok ⟨["end_date"], none, [], []⟩ :=
  C3_normalizer_noop_on_zero_rows ⟨["end_date"], none, [], []⟩ ["end_date"] rfl (by decide)

/-- C2 counterexample: the appeal fetch does not guard its date conversion
with an emptiness check; on an empty fetch result it raises a KeyError
instead of returning the empty table unchanged. -/
theorem C2_counterexample :
    fetch_appeals_json_as_dataframe_given_url (fun _ => Cell.arr []) "u" =
      Except.error "KeyError: start_date" := rfl

/-- C2 (amended): of the three date-converting fetch functions, the projects
and contributions fetches guard the conversion with an emptiness check and
return an empty fetched table unchanged without error; the appeals fetch
applies the conversion unconditionally, so an empty appeals result raises a
KeyError on its first date column. -/
theorem C2_emptiness_guard_coverage :
    (∀ (net : Net) (appeal_id : Cell),
        net (build_json_url ("Project/appeal/" ++ str_py appeal_id)) = Cell.arr [] →
        fetch_projects_json_for_appeal_as_dataframe net appeal_id =
          Except.ok emptyDataFrame) ∧
    (∀ (net : Net) (url : String), net url = Cell.arr [] →
        fetch_contributions_json_as_dataframe_given_url net url =
          Except.ok emptyDataFrame) ∧
    (∀ (net : Net) (url : String), net url = Cell.arr [] →
        fetch_appeals_json_as_dataframe_given_url net url =
          Except.error "KeyError: start_date") := by
  refine ⟨fun net aid h => ?_, fun net url h => ?_, fun net url h => ?_⟩
  · unfold fetch_projects_json_for_appeal_as_dataframe fetch_json_as_dataframe_with_id
      fetch_json_as_dataframe
    rw [h]
    rfl
  · unfold fetch_contributions_json_as_dataframe_given_url fetch_json_as_dataframe_with_id
      fetch_json_as_dataframe
    rw [h]
    rfl
  · unfold fetch_appeals_json_as_dataframe_given_url fetch_json_as_dataframe_with_id
      fetch_json_as_dataframe
    rw [h]
    rfl

/-- Witness for the amended C2 at a network returning the empty array. -/
theorem C2_witness :
    fetch_projects_json_for_appeal_as_dataframe (fun _ => Cell.arr []) (Cell.num 5) =
      Except.ok emptyDataFrame ∧
    fetch_contributions_json_as_dataframe_given_url (fun _ => Cell.arr []) "u" =
      Except.ok emptyDataFrame ∧
    fetch_appeals_json_as_dataframe_given_url (fun _ => Cell.arr []) "u" =
      Except.error "KeyError: start_date" :=
  ⟨C2_emptiness_guard_coverage.1 (fun _ => Cell.arr []) (Cell.num 5) rfl,
   C2_emptiness_guard_coverage.2.1 (fun _ => Cell.arr []) "u" rfl,
   C2_emptiness_guard_coverage.2.2 (fun _ => Cell.arr []) "u" rfl⟩

/-- C6 counterexample: at the exact input of the claim, the top-level record
list with one element whose grouping field holds the two typed amounts, the
grouping column of the loaded table holds one cell, the whole nested list,
so from_records builds one positional row with integer column labels; the
rename matches nothing and the reindexing by the alias raises a KeyError
instead of producing the claimed two-row table. -/
theorem C6_counterexample :
    fetch_funding_json_for_appeal_as_dataframe c6netList (Cell.num 942) none (some "donor") =
      Except.error "KeyError: donor" := rfl

/-- C6 (amended): with the grouping payload delivered as a single top-level
object (the shape whose grouping field loads as one row per element), the
funding fetch with alias donor returns the table with two rows indexed by
donor with values A and B, and the amount column renamed to the resource
label funding. -/
theorem C6_grouping_flatten_with_alias :
    fetch_funding_json_for_appeal_as_dataframe c6netObj (Cell.num 942) none (some "donor") =
      Except.ok { columns := ["funding"], indexName := some "donor",
                  index := [Cell.str "A", Cell.str "B"],
                  rows := [[Cell.num 5], [Cell.num 7]] } := rfl

/-- Dropping the empty frames from a list of frames that share one non-empty
column schema loses no rows: on such a schema a frame is empty exactly when
it has no rows. -/
theorem filter_preserves_flattened_rows (fs : List DataFrame) (cols : List String)
    (hcols : ∀ f ∈ fs, f.columns = cols) (hc : cols ≠ []) :
    ((filter_out_empty_dataframes fs).map DataFrame.rows).flatten =
      (fs.map DataFrame.rows).flatten := by
  induction fs with
  | nil => rfl
  | cons f rest ih =>
      have hrest : ∀ g ∈ rest, g.columns = cols :=
        fun g hg => hcols g (List.mem_cons_of_mem f hg)
      unfold filter_out_empty_dataframes at ih ⊢
      rw [List.filter_cons]
      cases hfe : f.empty with
      | false => simpa using congrArg (f.rows ++ ·) (ih hrest)
      | true =>
          have hfc : f.columns = cols := hcols f (List.mem_cons_self f rest)
          have hfr : f.rows = [] := by
            unfold DataFrame.empty at hfe
            rcases Bool.or_eq_true_iff.mp hfe with h | h
            · exact List.isEmpty_iff.mp h
            · rw [hfc] at h
              exact absurd (List.isEmpty_iff.mp h) hc
          simp [hfr, ih hrest]

/-- Concatenating the non-empty frames of a same-schema family succeeds and
yields exactly the rows of all frames in order. -/
theorem concat_of_filtered (fs : List DataFrame) (cols : List String)
    (hcols : ∀ f ∈ fs, f.columns = cols) (hc : cols ≠ [])
    (hne : ∃ f ∈ fs, f.empty = false) :
    ∃ g, pd_concat (filter_out_empty_dataframes fs) = Except.ok g ∧
      g.columns = cols ∧
      g.rows = (fs.map DataFrame.rows).flatten := by
  have hmem : ∀ f ∈ filter_out_empty_dataframes fs, f.columns = cols := by
    intro f hf
    exact hcols f (List.mem_of_mem_filter hf)
  obtain ⟨f, hf, hfe⟩ := hne
  have hffil : f ∈ filter_out_empty_dataframes fs :=
    List.mem_filter.mpr ⟨hf, by simp [hfe]⟩
  cases hfil : filter_out_empty_dataframes fs with
  | nil => rw [hfil] at hffil; cases hffil
  | cons f0 rest =>
      have h0 : f0.columns = cols := hmem f0 (by rw [hfil]; exact List.mem_cons_self f0 rest)
      have hall : rest.all (fun g => g.columns == f0.columns) = true := by
        rw [List.all_eq_true]
        intro g hg
        have hgc : g.columns = cols :=
          hmem g (by rw [hfil]; exact List.mem_cons_of_mem _ hg)
        simp [hgc, h0]
      simp only [pd_concat]
      rw [if_pos hall]
      refine ⟨_, rfl, h0, ?_⟩
      show ((f0 :: rest).map DataFrame.rows).flatten = (fs.map DataFrame.rows).flatten
      rw [← hfil]
      exact filter_preserves_flattened_rows fs cols hcols hc

/-- C5: concatenation of per-appeal project tables excludes every empty
intermediate table and preserves the row order of the remaining tables, the
result carrying exactly the rows of all fetched tables in appeal-id iteration
order; and in the end-to-end scenario of a country with two appeals, one with
zero projects and one with three, produce_projects_csv_for_country writes one
CSV whose line list is a header plus exactly three data rows. -/
theorem C5_projects_concatenation_and_end_to_end :
    (∀ (fs : List DataFrame) (cols : List String),
        (∀ f ∈ fs, f.columns = cols) → cols ≠ [] →
        (∃ f ∈ fs, f.empty = false) →
        ∃ g, pd_concat (filter_out_empty_dataframes fs) = Except.ok g ∧
          g.columns = cols ∧
          g.rows = (fs.map DataFrame.rows).flatten) ∧
    (produce_projects_csv_for_country c5net "/out" "Chad" =
        Except.ok [FsEvent.write "/out/fts_Chad_projects.csv" c5lines] ∧
      c5lines.length = 1 + 3) :=
  ⟨fun fs cols h1 h2 h3 => concat_of_filtered fs cols h1 h2 h3, rfl, rfl⟩

/-- Witness for C5 at a pair of one-column frames, the first empty and the
second holding one row. -/
theorem C5_witness :
    ∃ g, pd_concat (filter_out_empty_dataframes
        [{ columns := ["a"], indexName := none, index := [], rows := [] },
         { columns := ["a"], indexName := none, index := [Cell.num 0],
           rows := [[Cell.num 1]] }]) = Except.ok g ∧
      g.columns = ["a"] ∧
      g.rows = ([[], [[Cell.num 1]]] : List (List (List Cell))).flatten :=
  C5_projects_concatenation_and_end_to_end.1
    [{ columns := ["a"], indexName := none, index := [], rows := [] },
     { columns := ["a"], indexName := none, index := [Cell.num 0], rows := [[Cell.num 1]] }]
    ["a"]
    (by intro f hf
        rcases List.mem_cons.mp hf with rfl | hf2
        · rfl
        · rcases List.mem_cons.mp hf2 with rfl | hf3
          · rfl
          · cases hf3)
    (by decide)
    ⟨{ columns := ["a"], indexName := none, index := [Cell.num 0], rows := [[Cell.num 1]] },
     by simp, rfl⟩

/-- A projects fetch whose wire result is the empty array returns the empty
table unchanged. -/
theorem fetch_projects_empty_result (net : Net) (appeal_id : Cell)
    (h : net (build_json_url ("Project/appeal/" ++ str_py appeal_id)) = Cell.arr []) :
    fetch_projects_json_for_appeal_as_dataframe net appeal_id = Except.ok emptyDataFrame := by
  unfold fetch_projects_json_for_appeal_as_dataframe fetch_json_as_dataframe_with_id
    fetch_json_as_dataframe
  rw [h]
  rfl

/-- A per-emergency contributions fetch whose wire result is the empty array
returns the empty table unchanged. -/
theorem fetch_contributions_emergency_empty_result (net : Net) (emergency_id : Cell)
    (h : net (build_json_url ("Contribution/emergency/" ++ str_py emergency_id)) = Cell.arr []) :
    fetch_contributions_json_for_emergency_as_dataframe net emergency_id =
      Except.ok emptyDataFrame := by
  unfold fetch_contributions_json_for_emergency_as_dataframe
    fetch_contributions_json_as_dataframe_given_url fetch_json_as_dataframe_with_id
    fetch_json_as_dataframe
  rw [h]
  rfl

/-- When every appeal id maps to an empty project result, the per-appeal fetch
loop yields one empty table per appeal. -/
theorem mapExcept_projects_all_empty (net : Net) (ids : List Cell)
    (h : ∀ aid ∈ ids, net (build_json_url ("Project/appeal/" ++ str_py aid)) = Cell.arr []) :
    mapExcept (fun appeal_id => fetch_projects_json_for_appeal_as_dataframe net appeal_id)
        ids = Except.ok (ids.map fun _ => emptyDataFrame) := by
  induction ids with
  | nil => rfl
  | cons a as ih =>
      simp only [mapExcept, fetch_projects_empty_result net a (h a (List.mem_cons_self a as)),
        ok_bind, ih (fun x hx => h x (List.mem_cons_of_mem a hx)), List.map_cons]
      rfl

/-- When every emergency id maps to an empty contribution result, the
per-emergency fetch loop yields one empty table per emergency. -/
theorem mapExcept_contributions_all_empty (net : Net) (ids : List Cell)
    (h : ∀ eid ∈ ids,
        net (build_json_url ("Contribution/emergency/" ++ str_py eid)) = Cell.arr []) :
    mapExcept
        (fun emergency_id => fetch_contributions_json_for_emergency_as_dataframe net emergency_id)
        ids = Except.ok (ids.map fun _ => emptyDataFrame) := by
  induction ids with
  | nil => rfl
  | cons a as ih =>
      simp only [mapExcept,
        fetch_contributions_emergency_empty_result net a (h a (List.mem_cons_self a as)),
        ok_bind, ih (fun x hx => h x (List.mem_cons_of_mem a hx)), List.map_cons]
      rfl

/-- Filtering a list of empty tables leaves nothing. -/
theorem filter_out_map_const_empty (l : List Cell) :
    filter_out_empty_dataframes (l.map fun _ => emptyDataFrame) = [] := by
  induction l with
  | nil => rfl
  | cons a as ih =>
      simp only [List.map_cons]
      unfold filter_out_empty_dataframes at ih ⊢
      rw [List.filter_cons, if_neg (by decide)]
      exact ih

/-- C10: a country with no appeals at all makes produce_projects_csv_for_country
fail (the unguarded appeals date conversion raises first), a country all of
whose appeals yield empty project tables makes it fail with the concat error
on the empty filtered list, and likewise produce_contributions_csv_for_country
fails when every per-emergency contribution table is empty; in each case no
CSV is written. -/
theorem C10_degenerate_countries_fail :
    (∀ (net : Net) (output_dir country : String),
        net (build_json_url ("Appeal/country/" ++ country)) = Cell.arr [] →
        produce_projects_csv_for_country net output_dir country =
          Except.error "KeyError: start_date") ∧
    (∀ (net : Net) (output_dir country : String) (A : DataFrame),
        fetch_appeals_json_for_country_as_dataframe net country = Except.ok A →
        (∀ aid ∈ A.index,
            net (build_json_url ("Project/appeal/" ++ str_py aid)) = Cell.arr []) →
        produce_projects_csv_for_country net output_dir country =
          Except.error "ValueError: No objects to concatenate") ∧
    (∀ (net : Net) (output_dir country : String) (E : DataFrame),
        fetch_emergencies_json_for_country_as_dataframe net country = Except.ok E →
        (∀ eid ∈ E.index,
            net (build_json_url ("Contribution/emergency/" ++ str_py eid)) = Cell.arr []) →
        produce_contributions_csv_for_country net output_dir country =
          Except.error "ValueError: No objects to concatenate") := by
  refine ⟨fun net odir country h => ?_, fun net odir country A hA hIds => ?_,
          fun net odir country E hE hIds => ?_⟩
  · unfold produce_projects_csv_for_country fetch_appeals_json_for_country_as_dataframe
      fetch_appeals_json_as_dataframe_given_url fetch_json_as_dataframe_with_id
      fetch_json_as_dataframe
    rw [h]
    rfl
  · unfold produce_projects_csv_for_country
    rw [hA]
    simp only [ok_bind]
    rw [mapExcept_projects_all_empty net A.index hIds]
    simp only [ok_bind, filter_out_map_const_empty]
    rfl
  · unfold produce_contributions_csv_for_country
    rw [hE]
    simp only [ok_bind]
    rw [mapExcept_contributions_all_empty net E.index hIds]
    simp only [ok_bind, filter_out_map_const_empty]
    rfl

/-- Witness for C10 at three concrete networks: no appeals; one appeal with an
empty project table; one emergency with an empty contribution table. -/
theorem C10_witness :
    produce_projects_csv_for_country (fun _ => Cell.arr []) "/out" "Chad" =
      Except.error "KeyError: start_date" ∧
    produce_projects_csv_for_country c10netEmptyProjects "/out" "Chad" =
      Except.error "ValueError: No objects to concatenate" ∧
    produce_contributions_csv_for_country c10netEmptyContributions "/out" "Chad" =
      Except.error "ValueError: No objects to concatenate" := by
  refine ⟨C10_degenerate_countries_fail.1 (fun _ => Cell.arr []) "/out" "Chad" rfl, ?_, ?_⟩
  · refine C10_degenerate_countries_fail.2.1 c10netEmptyProjects "/out" "Chad"
      { columns := ["start_date", "end_date", "launch_date"], indexName := some "id",
        index := [Cell.num 1],
        rows := [[Cell.timestamp "2013-01-01", Cell.timestamp "2013-06-30",
                  Cell.timestamp "2012-12-15"]] } rfl ?_
    intro aid haid
    have ha : aid = Cell.num 1 := List.mem_singleton.mp haid
    subst ha
    rfl
  · refine C10_degenerate_countries_fail.2.2 c10netEmptyContributions "/out" "Chad"
      { columns := ["title"], indexName := some "id", index := [Cell.num 7],
        rows := [[Cell.str "drought"]] } rfl ?_
    intro eid heid
    have he : eid = Cell.num 7 := List.mem_singleton.mp heid
    subst he
    rfl

/-- A successful emergencies producer run writes exactly one file, at the
per-country emergencies path. -/
theorem produce_emergencies_write_shape (net : Net) (output_dir country : String)
    (evs : List FsEvent)
    (h : produce_emergencies_csv_for_country net output_dir country = Except.ok evs) :
    ∃ w, evs = [FsEvent.write (build_csv_path output_dir "emergencies" (some country)) w] := by
  unfold produce_emergencies_csv_for_country at h
  cases hf : fetch_emergencies_json_for_country_as_dataframe net country with
  | error e => rw [hf] at h; simp at h
  | ok d =>
      rw [hf] at h
      simp only [ok_bind] at h
      exact ⟨d.to_csv, (Except.ok.inj h).symm⟩

/-- A successful appeals producer run writes exactly one file, at the
per-country appeals path. -/
theorem produce_appeals_write_shape (net : Net) (output_dir country : String)
    (evs : List FsEvent)
    (h : produce_appeals_csv_for_country net output_dir country = Except.ok evs) :
    ∃ w, evs = [FsEvent.write (build_csv_path output_dir "appeals" (some country)) w] := by
  unfold produce_appeals_csv_for_country at h
  cases hf : fetch_appeals_json_for_country_as_dataframe net country with
  | error e => rw [hf] at h; simp at h
  | ok d =>
      rw [hf] at h
      simp only [ok_bind] at h
      exact ⟨d.to_csv, (Except.ok.inj h).symm⟩

/-- A successful projects producer run writes exactly one file, at the
per-country projects path. -/
theorem produce_projects_write_shape (net : Net) (output_dir country : String)
    (evs : List FsEvent)
    (h : produce_projects_csv_for_country net output_dir country = Except.ok evs) :
    ∃ w, evs = [FsEvent.write (build_csv_path output_dir "projects" (some country)) w] := by
  unfold produce_projects_csv_for_country at h
  cases h1 : fetch_appeals_json_for_country_as_dataframe net country with
  | error e => rw [h1] at h; simp at h
  | ok A =>
      rw [h1] at h
      simp only [ok_bind] at h
      cases h2 : mapExcept
          (fun appeal_id => fetch_projects_json_for_appeal_as_dataframe net appeal_id)
          A.index with
      | error e => rw [h2] at h; simp at h
      | ok ps =>
          rw [h2] at h
          simp only [ok_bind] at h
          cases h3 : pd_concat (filter_out_empty_dataframes ps) with
          | error e => rw [h3] at h; simp at h
          | ok g =>
              rw [h3] at h
              simp only [ok_bind] at h
              exact ⟨g.to_csv, (Except.ok.inj h).symm⟩

/-- A successful contributions producer run writes exactly one file, at the
per-country contributions path. -/
theorem produce_contributions_write_shape (net : Net) (output_dir country : String)
    (evs : List FsEvent)
    (h : produce_contributions_csv_for_country net output_dir country = Except.ok evs) :
    ∃ w, evs = [FsEvent.write (build_csv_path output_dir "contributions" (some country)) w] := by
  unfold produce_contributions_csv_for_country at h
  cases h1 : fetch_emergencies_json_for_country_as_dataframe net country with
  | error e => rw [h1] at h; simp at h
  | ok E =>
      rw [h1] at h
      simp only [ok_bind] at h
      cases h2 : mapExcept
          (fun emergency_id => fetch_contributions_json_for_emergency_as_dataframe net emergency_id)
          E.index with
      | error e => rw [h2] at h; simp at h
      | ok cs =>
          rw [h2] at h
          simp only [ok_bind] at h
          cases h3 : pd_concat (filter_out_empty_dataframes cs) with
          | error e => rw [h3] at h; simp at h
          | ok g =>
              rw [h3] at h
              simp only [ok_bind] at h
              exact ⟨g.to_csv, (Except.ok.inj h).symm⟩

/-- C9: the global producer writes its CSVs at
base/fts/global/fts_(type).csv for sectors, countries and organizations,
after creating the output directory recursively when it is missing; and any
successful per-country producer run writes its four CSVs at
base/fts/per_country/(country)/fts_(country)_(type).csv for emergencies,
appeals, projects and contributions, again creating the directory when
missing. -/
theorem C9_producer_paths :
    (∀ (net : Net) (exs : String → Bool) (base_output_dir : String) (d1 d2 d3 : DataFrame),
        fetch_sectors_json_as_dataframe net = Except.ok d1 →
        fetch_countries_json_as_dataframe net = Except.ok d2 →
        fetch_organizations_json_as_dataframe net = Except.ok d3 →
        produce_global_csvs net exs base_output_dir = Except.ok
          ((if exs (os_path_join (os_path_join base_output_dir "fts") "global") then []
            else [FsEvent.mkdirs (os_path_join (os_path_join base_output_dir "fts") "global")]) ++
           [FsEvent.write
              (os_path_join (os_path_join (os_path_join base_output_dir "fts") "global")
                "fts_sectors.csv") d1.to_csv,
            FsEvent.write
              (os_path_join (os_path_join (os_path_join base_output_dir "fts") "global")
                "fts_countries.csv") d2.to_csv,
            FsEvent.write
              (os_path_join (os_path_join (os_path_join base_output_dir "fts") "global")
                "fts_organizations.csv") d3.to_csv])) ∧
    (∀ (net : Net) (exs : String → Bool) (base_output_dir country : String)
        (evs : List FsEvent), country ≠ "" →
        produce_csvs_for_country net exs base_output_dir country = Except.ok evs →
        ∃ w1 w2 w3 w4, evs =
          (if exs (os_path_join (os_path_join (os_path_join base_output_dir "fts")
              "per_country") country) then []
           else [FsEvent.mkdirs (os_path_join (os_path_join (os_path_join base_output_dir
              "fts") "per_country") country)]) ++
          [FsEvent.write
             (os_path_join (os_path_join (os_path_join (os_path_join base_output_dir "fts")
                "per_country") country) ("fts_" ++ country ++ "_" ++ "emergencies" ++ ".csv")) w1,
           FsEvent.write
             (os_path_join (os_path_join (os_path_join (os_path_join base_output_dir "fts")
                "per_country") country) ("fts_" ++ country ++ "_" ++ "appeals" ++ ".csv")) w2,
           FsEvent.write
             (os_path_join (os_path_join (os_path_join (os_path_join base_output_dir "fts")
                "per_country") country) ("fts_" ++ country ++ "_" ++ "projects" ++ ".csv")) w3,
           FsEvent.write
             (os_path_join (os_path_join (os_path_join (os_path_join base_output_dir "fts")
                "per_country") country)
               ("fts_" ++ country ++ "_" ++ "contributions" ++ ".csv")) w4]) := by
  constructor
  · intro net exs base d1 d2 d3 h1 h2 h3
    unfold produce_global_csvs produce_sectors_csv produce_countries_csv
      produce_organizations_csv
    rw [h1, h2, h3]
    simp only [ok_bind, List.append_assoc]
    rfl
  · intro net exs base country evs hc h
    have hpath : ∀ t : String, build_csv_path
        (os_path_join (os_path_join (os_path_join base "fts") "per_country") country) t
        (some country) =
        os_path_join (os_path_join (os_path_join (os_path_join base "fts") "per_country")
          country) ("fts_" ++ country ++ "_" ++ t ++ ".csv") := by
      intro t
      simp only [build_csv_path, if_pos hc]
    unfold produce_csvs_for_country at h
    dsimp only at h
    cases h1 : produce_emergencies_csv_for_country net
        (os_path_join (os_path_join (os_path_join base "fts") "per_country") country)
        country with
    | error e => rw [h1] at h; simp at h
    | ok e1 =>
        rw [h1] at h
        simp only [ok_bind] at h
        cases h2 : produce_appeals_csv_for_country net
            (os_path_join (os_path_join (os_path_join base "fts") "per_country") country)
            country with
        | error e => rw [h2] at h; simp at h
        | ok e2 =>
            rw [h2] at h
            simp only [ok_bind] at h
            cases h3 : produce_projects_csv_for_country net
                (os_path_join (os_path_join (os_path_join base "fts") "per_country") country)
                country with
            | error e => rw [h3] at h; simp at h
            | ok e3 =>
                rw [h3] at h
                simp only [ok_bind] at h
                cases h4 : produce_contributions_csv_for_country net
                    (os_path_join (os_path_join (os_path_join base "fts") "per_country")
                      country) country with
                | error e => rw [h4] at h; simp at h
                | ok e4 =>
                    rw [h4] at h
                    simp only [ok_bind] at h
                    obtain ⟨w1, hw1⟩ := produce_emergencies_write_shape net _ country e1 h1
                    obtain ⟨w2, hw2⟩ := produce_appeals_write_shape net _ country e2 h2
                    obtain ⟨w3, hw3⟩ := produce_projects_write_shape net _ country e3 h3
                    obtain ⟨w4, hw4⟩ := produce_contributions_write_shape net _ country e4 h4
                    refine ⟨w1, w2, w3, w4, ?_⟩
                    rw [← Except.ok.inj h, hw1, hw2, hw3, hw4]
                    simp [hpath, List.append_assoc]

/-- Witness for C9 at the concrete network c9net, an absent filesystem, base
directories /out and /o and country C. -/
theorem C9_witness :
    produce_global_csvs c9net (fun _ => false) "/out" = Except.ok
      [FsEvent.mkdirs "/out/fts/global",
       FsEvent.write "/out/fts/global/fts_sectors.csv" ["id,name", "1,Health"],
       FsEvent.write "/out/fts/global/fts_countries.csv" ["id,name", "2,Chad"],
       FsEvent.write "/out/fts/global/fts_organizations.csv" ["id,name", "3,UN"]] ∧
    (∃ w1 w2 w3 w4,
      ([FsEvent.mkdirs "/o/fts/per_country/C",
        FsEvent.write "/o/fts/per_country/C/fts_C_emergencies.csv" ["id,title", "7,drought"],
        FsEvent.write "/o/fts/per_country/C/fts_C_appeals.csv"
          ["id,start_date,end_date,launch_date", "1,2013-01-01,2013-06-30,2012-12-15"],
        FsEvent.write "/o/fts/per_country/C/fts_C_projects.csv"
          ["id,end_date,last_updated_datetime", "11,2013-06-30,2013-05-01"],
        FsEvent.write "/o/fts/per_country/C/fts_C_contributions.csv"
          ["id,decision_date", "21,2013-03-01"]] : List FsEvent) =
      [FsEvent.mkdirs "/o/fts/per_country/C",
       FsEvent.write "/o/fts/per_country/C/fts_C_emergencies.csv" w1,
       FsEvent.write "/o/fts/per_country/C/fts_C_appeals.csv" w2,
       FsEvent.write "/o/fts/per_country/C/fts_C_projects.csv" w3,
       FsEvent.write "/o/fts/per_country/C/fts_C_contributions.csv" w4]) :=
  ⟨C9_producer_paths.1 c9net (fun _ => false) "/out"
      { columns := ["name"], indexName := some "id", index := [Cell.num 1],
        rows := [[Cell.str "Health"]] }
      { columns := ["name"], indexName := some "id", index := [Cell.num 2],
        rows := [[Cell.str "Chad"]] }
      { columns := ["name"], indexName := some "id", index := [Cell.num 3],
        rows := [[Cell.str "UN"]] }
      rfl rfl rfl,
   C9_producer_paths.2 c9net (fun _ => false) "/o" "C" _ (by decide) rfl⟩

end Fts
